import Mathlib

/-!
# Verification of the multi-provider OAuth authorization core

Shallow embedding, in Lean 4, of the OAuth 2.1 authorization core of the
`remote-mcp-server-with-auth` repository: the PKCE helpers, the
authorization-request state codec (`btoa(JSON.stringify({...req, codeVerifier}))`
and its inverse), the per-provider callback handlers (Google, Keycloak,
Auth0, generic/custom OAuth), and the provider router of the two worker
entry points (`src/index.ts` and `src/index_sentry.ts`).

JavaScript strings are modelled as Lean `String`s (sequences of unicode
scalars); absent values (`undefined`) as `Option`; JS truthiness of string
values as `jsTruthy`; thrown exceptions as explicit `thrown`/`none` results.
Outbound HTTP calls made by a callback handler are recorded in an explicit
trace so that claims about which upstream endpoints get invoked are statable.
-/

set_option maxRecDepth 65536

namespace McpAuth

/-- JS truthiness of a possibly-`undefined` string value: `undefined` and the
empty string are falsy, every other string is truthy. -/
def jsTruthy : Option String → Bool
  | none => false
  | some s => s ≠ ""

/-- JS `a || b` for a possibly-undefined string `a` with default `b`
(used by the handlers for fallback chains such as
`preferred_username || ... || 'unknown'`). -/
def jsOrStr (a : Option String) (b : String) : String :=
  match a with
  | none => b
  | some s => if s = "" then b else s

/-- JS `email.split('@')[0]`: the part of the string before the first `'@'`
(the whole string when there is no `'@'`, the empty string when the string
starts with `'@'` or is empty). -/
def localPart (s : String) : String :=
  String.mk (s.data.takeWhile (· ≠ '@'))

/-- Whether `pat` occurs as a contiguous sublist of `l`. -/
def listContains (l pat : List Char) : Bool :=
  pat.isPrefixOf l ||
    match l with
    | [] => false
    | _ :: rest => listContains rest pat

/-- JS `String.prototype.includes` for a non-empty pattern, modelled as
list-infix containment on the character sequences. -/
def containsSub (s pat : String) : Bool :=
  listContains s.data pat.data

/-! ## Base64 (`btoa` / `atob`)

The handlers use `btoa` to build both the PKCE challenge and the opaque
`state`, and `atob` to decode `state` on callback.  `btoa` maps a string of
code points `< 256` to standard base64 with `=` padding and throws otherwise
(modelled by `Option`); `atob` performs the WHATWG forgiving-base64 decode
(strip trailing `=` when the length is a multiple of 4, reject a remainder
of 1, map alphabet characters to sextets, drop leftover bits). -/

/-- The standard base64 alphabet, index `n` holding the character of sextet
value `n`. -/
def b64Alphabet : List Char :=
  ['A','B','C','D','E','F','G','H','I','J','K','L','M','N','O','P','Q','R',
   'S','T','U','V','W','X','Y','Z','a','b','c','d','e','f','g','h','i','j',
   'k','l','m','n','o','p','q','r','s','t','u','v','w','x','y','z','0','1',
   '2','3','4','5','6','7','8','9','+','/']

/-- Character of a sextet value (reduced mod 64, so the function is total on
`Nat` and always lands in the alphabet). -/
def sextetChar (n : Nat) : Char :=
  b64Alphabet.getD (n % 64) '?'

/-- Inverse alphabet lookup: the sextet value of a base64 character, `none`
for characters outside the alphabet (this is what makes `atob` throw). -/
def charSextet (c : Char) : Option Nat :=
  b64Alphabet.findIdx? (· == c)

/-- Standard base64 encoding of a byte list, chunked 3 bytes → 4 characters,
with `=` padding exactly as `btoa` emits it. -/
def encodeB64Bytes : List Nat → List Char
  | [] => []
  | [b1] =>
      [sextetChar (b1 / 4), sextetChar (b1 % 4 * 16), '=', '=']
  | [b1, b2] =>
      [sextetChar (b1 / 4), sextetChar (b1 % 4 * 16 + b2 / 16),
       sextetChar (b2 % 16 * 4), '=']
  | b1 :: b2 :: b3 :: rest =>
      sextetChar (b1 / 4) :: sextetChar (b1 % 4 * 16 + b2 / 16) ::
      sextetChar (b2 % 16 * 4 + b3 / 64) :: sextetChar (b3 % 64) ::
      encodeB64Bytes rest

/-- Strip trailing `=` padding (at most two), as the forgiving-base64 decode
does when the input length is a multiple of four. -/
def stripPad : List Char → List Char
  | [] => []
  | ['='] => []
  | ['=', '='] => []
  | c :: rest => c :: stripPad rest

/-- Map a partial function across a list, failing if any element fails. -/
def seqMap (f : α → Option β) : List α → Option (List β)
  | [] => some []
  | a :: l =>
      match f a, seqMap f l with
      | some b, some bl => some (b :: bl)
      | _, _ => none

/-- Reassemble bytes from sextets, 4 sextets → 3 bytes, discarding the
leftover 4 or 2 bits of a trailing group of 2 or 3 sextets. -/
def sextetsToBytes : List Nat → List Nat
  | [] => []
  | [_] => []
  | [s1, s2] => [s1 * 4 + s2 / 16]
  | [s1, s2, s3] => [s1 * 4 + s2 / 16, s2 % 16 * 16 + s3 / 4]
  | s1 :: s2 :: s3 :: s4 :: rest =>
      (s1 * 4 + s2 / 16) :: (s2 % 16 * 16 + s3 / 4) :: (s3 % 4 * 64 + s4) ::
      sextetsToBytes rest

/-- Forgiving-base64 decode on characters: the byte list, or `none` where
`atob` throws. -/
def atobChars (cs : List Char) : Option (List Nat) :=
  let cs' := if cs.length % 4 = 0 then stripPad cs else cs
  if cs'.length % 4 = 1 then none
  else (seqMap charSextet cs').map sextetsToBytes

/-- `atob`: base64-decode to the string whose code points are the decoded
bytes; `none` models the `InvalidCharacterError` throw. -/
def atobM (s : String) : Option String :=
  (atobChars s.data).map (fun bs => String.mk (bs.map Char.ofNat))

/-- `btoa`: base64-encode the code points of a string all of which are
`< 256`; `none` models the throw on a character outside Latin-1. -/
def btoaM (s : String) : Option String :=
  if s.data.all (fun c => c.toNat < 256) then
    some (String.mk (encodeB64Bytes (s.data.map Char.toNat)))
  else none

/-! ### Base64 round trip -/

/-- The sextet values of `encodeB64Bytes` before padding is appended. -/
def encodeCoreSextets : List Nat → List Nat
  | [] => []
  | [b1] => [b1 / 4, b1 % 4 * 16]
  | [b1, b2] => [b1 / 4, b1 % 4 * 16 + b2 / 16, b2 % 16 * 4]
  | b1 :: b2 :: b3 :: rest =>
      (b1 / 4) :: (b1 % 4 * 16 + b2 / 16) :: (b2 % 16 * 4 + b3 / 64) ::
      (b3 % 64) :: encodeCoreSextets rest

/-! ## JSON strings (`JSON.stringify` / `JSON.parse` for the state object)

The state codec of the handlers is
`state = btoa(JSON.stringify({...oauthReqInfo, codeVerifier}))` and
`JSON.parse(atob(state))` on callback.  The object serialized is a record of
string fields, so the JSON fragment needed is: string escaping as
`JSON.stringify` performs it (`\"`, `\\`, the short control escapes
`\b \t \n \f \r`, `\u00XX` for remaining control characters, all other
characters verbatim), and the inverse parse of string literals
(`JSON.parse` escape handling, raw control characters rejected). -/

/-- Lower-case hex digit of a value `< 16` (as `JSON.stringify` emits in
`\u00XX` escapes). -/
def hexDigitChar (n : Nat) : Char :=
  if n < 10 then Char.ofNat (48 + n) else Char.ofNat (87 + n)

/-- `JSON.stringify` escaping of one character inside a string literal. -/
def escapeChar (c : Char) : List Char :=
  if c = '"' then ['\\', '"']
  else if c = '\\' then ['\\', '\\']
  else if c = '\x08' then ['\\', 'b']
  else if c = '\t' then ['\\', 't']
  else if c = '\n' then ['\\', 'n']
  else if c = '\x0c' then ['\\', 'f']
  else if c = '\r' then ['\\', 'r']
  else if c.toNat < 32 then
    ['\\', 'u', '0', '0', hexDigitChar (c.toNat / 16), hexDigitChar (c.toNat % 16)]
  else [c]

/-- `JSON.stringify` escaping of a whole string (without the surrounding
quotes). -/
def escChars (s : String) : List Char :=
  (s.data.map escapeChar).flatten

/-- Value of a hex digit as `JSON.parse` accepts it in `\uXXXX`. -/
def hexVal (c : Char) : Option Nat :=
  let n := c.toNat
  if 48 ≤ n ∧ n ≤ 57 then some (n - 48)
  else if 97 ≤ n ∧ n ≤ 102 then some (n - 87)
  else if 65 ≤ n ∧ n ≤ 70 then some (n - 55)
  else none

/-- The character denoted by a single-character JSON escape (`\"`, `\\`,
`\/`, `\b`, `\t`, `\n`, `\f`, `\r`); `none` for anything else. -/
def jsonEscChar (e : Char) : Option Char :=
  if e = '"' then some '"'
  else if e = '\\' then some '\\'
  else if e = '/' then some '/'
  else if e = 'b' then some '\x08'
  else if e = 't' then some '\t'
  else if e = 'n' then some '\n'
  else if e = 'f' then some '\x0c'
  else if e = 'r' then some '\r'
  else none

/-- `JSON.parse` of the body of a string literal, after the opening quote:
returns the decoded characters and the input remaining after the closing
quote; `none` models the `SyntaxError` throw (unterminated literal, bad
escape, raw control character). -/
def parseJsonStringBody : List Char → Option (List Char × List Char)
  | [] => none
  | '"' :: rest => some ([], rest)
  | '\\' :: 'u' :: h1 :: h2 :: h3 :: h4 :: rest =>
      match hexVal h1, hexVal h2, hexVal h3, hexVal h4,
          parseJsonStringBody rest with
      | some v1, some v2, some v3, some v4, some (tail, rem) =>
          some (Char.ofNat (v1 * 4096 + v2 * 256 + v3 * 16 + v4) :: tail, rem)
      | _, _, _, _, _ => none
  | '\\' :: e :: rest =>
      match jsonEscChar e, parseJsonStringBody rest with
      | some c, some (tail, rem) => some (c :: tail, rem)
      | _, _ => none
  | c :: rest =>
      if c.toNat < 32 then none
      else
        match parseJsonStringBody rest with
        | some (tail, rem) => some (c :: tail, rem)
        | none => none

/-! ## The authorization-request state codec

Every handler builds the opaque `state` as
`btoa(JSON.stringify({...oauthReqInfo, codeVerifier}))`
(google-handler.ts:59-62, keycloak handler, custom-oauth-handler.ts:58-61)
and recovers it on callback as `JSON.parse(atob(state))`. -/

/-- Modelled from the spec (§3): the `AuthRequest` type itself comes from the
`@cloudflare/workers-oauth-provider` package, which is not part of the
repository snapshot; the spec describes the record as "client identifier,
requested scope, redirect target, plus protocol-required opaque fields".
The JSON key order below is the fixed insertion order used when the record
is serialized. -/
structure AuthorizationRequest where
  responseType : String
  clientId : String
  redirectUri : String
  scope : String
  state : String
deriving DecidableEq

/-- `JSON.stringify({...req, codeVerifier})`: the serialized state object,
string fields in insertion order with the PKCE verifier appended as the
`codeVerifier` property. -/
def encodeStateChars (req : AuthorizationRequest) (codeVerifier : String) :
    List Char :=
  "\x7b\"responseType\":\"".data ++ (escChars req.responseType ++ '"' ::
  (",\"clientId\":\"".data ++ (escChars req.clientId ++ '"' ::
  (",\"redirectUri\":\"".data ++ (escChars req.redirectUri ++ '"' ::
  (",\"scope\":\"".data ++ (escChars req.scope ++ '"' ::
  (",\"state\":\"".data ++ (escChars req.state ++ '"' ::
  (",\"codeVerifier\":\"".data ++ (escChars codeVerifier ++ '"' ::
  "\x7d".data)))))))))))

/-- Consume an expected literal prefix of the input. -/
def expectChars : List Char → List Char → Option (List Char)
  | [], cs => some cs
  | p :: ps, c :: cs => if c = p then expectChars ps cs else none
  | _ :: _, [] => none

/-- `JSON.parse` of the serialized state object (the canonical shape emitted
by `encodeStateChars`): recovers the request fields and the `codeVerifier`
property.  `none` models the `SyntaxError` throw on any other input. -/
def parseStateChars (cs : List Char) :
    Option (AuthorizationRequest × String) := do
  let cs ← expectChars "\x7b\"responseType\":\"".data cs
  let (rt, cs) ← parseJsonStringBody cs
  let cs ← expectChars ",\"clientId\":\"".data cs
  let (cid, cs) ← parseJsonStringBody cs
  let cs ← expectChars ",\"redirectUri\":\"".data cs
  let (ru, cs) ← parseJsonStringBody cs
  let cs ← expectChars ",\"scope\":\"".data cs
  let (sc, cs) ← parseJsonStringBody cs
  let cs ← expectChars ",\"state\":\"".data cs
  let (st, cs) ← parseJsonStringBody cs
  let cs ← expectChars ",\"codeVerifier\":\"".data cs
  let (cv, cs) ← parseJsonStringBody cs
  let cs ← expectChars "\x7d".data cs
  if cs.isEmpty then
    some (⟨String.mk rt, String.mk cid, String.mk ru, String.mk sc,
      String.mk st⟩, String.mk cv)
  else none

/-- `encode(authRequest, pkceVerifier)` of §4.5: serialize and base64-encode;
`none` models the `btoa` throw on non-Latin-1 content. -/
def encodeState (req : AuthorizationRequest) (codeVerifier : String) :
    Option String :=
  btoaM (String.mk (encodeStateChars req codeVerifier))

/-- `decode(opaque string)` of §4.5, as the callbacks perform it
(`JSON.parse(atob(state))` plus field access): `none` models a thrown
`InvalidCharacterError`/`SyntaxError`. -/
def decodeState (s : String) : Option (AuthorizationRequest × String) :=
  match atobM s with
  | none => none
  | some j => parseStateChars j.data

/-! ## PKCE engine

`generateCodeChallenge(verifier)` (google-handler.ts:204-212,
custom-oauth-handler.ts:239-247, and identically in the other handlers)
computes `crypto.subtle.digest('SHA-256', utf8(verifier))`, base64-encodes
the digest with `btoa`, then rewrites `+`→`-`, `/`→`_` and strips `=`.
SHA-256 itself is the standard FIPS 180-4 function, implemented here over
`Nat` with explicit `% 2^32` reductions. -/

/-- UTF-8 encoding of one unicode scalar value. -/
def utf8EncodeChar (c : Char) : List Nat :=
  let n := c.toNat
  if n < 0x80 then [n]
  else if n < 0x800 then [0xC0 + n / 64, 0x80 + n % 64]
  else if n < 0x10000 then
    [0xE0 + n / 4096, 0x80 + n / 64 % 64, 0x80 + n % 64]
  else
    [0xF0 + n / 262144, 0x80 + n / 4096 % 64, 0x80 + n / 64 % 64,
     0x80 + n % 64]

/-- The UTF-8 bytes of a string (what `new TextEncoder().encode` produces). -/
def utf8Bytes (s : String) : List Nat :=
  (s.data.map utf8EncodeChar).flatten

/-- Right rotation of a 32-bit word. -/
def rotr32 (n x : Nat) : Nat :=
  (x / 2 ^ n + x % 2 ^ n * 2 ^ (32 - n)) % 2 ^ 32

/-- Bitwise complement of a 32-bit word. -/
def not32 (x : Nat) : Nat := x ^^^ 0xFFFFFFFF

def sha256SmallSigma0 (x : Nat) : Nat := rotr32 7 x ^^^ rotr32 18 x ^^^ x / 2 ^ 3
def sha256SmallSigma1 (x : Nat) : Nat := rotr32 17 x ^^^ rotr32 19 x ^^^ x / 2 ^ 10
def sha256BigSigma0 (x : Nat) : Nat := rotr32 2 x ^^^ rotr32 13 x ^^^ rotr32 22 x
def sha256BigSigma1 (x : Nat) : Nat := rotr32 6 x ^^^ rotr32 11 x ^^^ rotr32 25 x
def sha256Ch (e f g : Nat) : Nat := (e &&& f) ^^^ (not32 e &&& g)
def sha256Maj (a b c : Nat) : Nat := (a &&& b) ^^^ (a &&& c) ^^^ (b &&& c)

/-- The SHA-256 round constants. -/
def sha256K : List Nat :=
  [1116352408, 1899447441, 3049323471, 3921009573, 961987163, 1508970993,
   2453635748, 2870763221, 3624381080, 310598401, 607225278, 1426881987,
   1925078388, 2162078206, 2614888103, 3248222580, 3835390401, 4022224774,
   264347078, 604807628, 770255983, 1249150122, 1555081692, 1996064986,
   2554220882, 2821834349, 2952996808, 3210313671, 3336571891, 3584528711,
   113926993, 338241895, 666307205, 773529912, 1294757372, 1396182291,
   1695183700, 1986661051, 2177026350, 2456956037, 2730485921, 2820302411,
   3259730800, 3345764771, 3516065817, 3600352804, 4094571909, 275423344,
   430227734, 506948616, 659060556, 883997877, 958139571, 1322822218,
   1537002063, 1747873779, 1955562222, 2024104815, 2227730452, 2361852424,
   2428436474, 2756734187, 3204031479, 3329325298]

/-- The SHA-256 initial hash value. -/
def sha256H0 : List Nat :=
  [1779033703, 3144134277, 1013904242, 2773480762, 1359893119, 2600822924,
   528734635, 1541459225]

/-- Big-endian 8-byte encoding of a (64-bit) length value. -/
def be64 (n : Nat) : List Nat :=
  [n / 2 ^ 56 % 256, n / 2 ^ 48 % 256, n / 2 ^ 40 % 256, n / 2 ^ 32 % 256,
   n / 2 ^ 24 % 256, n / 2 ^ 16 % 256, n / 2 ^ 8 % 256, n % 256]

/-- SHA-256 message padding: `0x80`, zeros to 56 mod 64, then the bit length
big-endian. -/
def sha256Pad (msg : List Nat) : List Nat :=
  msg ++ 0x80 :: List.replicate ((119 - msg.length % 64) % 64) 0 ++
    be64 (msg.length * 8)

/-- Big-endian assembly of 4-byte groups into 32-bit words. -/
def bytesToWords32 : List Nat → List Nat
  | b1 :: b2 :: b3 :: b4 :: rest =>
      (b1 % 256 * 16777216 + b2 % 256 * 65536 + b3 % 256 * 256 + b4 % 256) ::
      bytesToWords32 rest
  | _ => []

/-- Expand a 16-word block to the 64-word message schedule. -/
def sha256Schedule (block : List Nat) : List Nat :=
  (List.range 48).foldl
    (fun w _ =>
      let t :=
        (sha256SmallSigma1 (w.getD (w.length - 2) 0) +
         w.getD (w.length - 7) 0 +
         sha256SmallSigma0 (w.getD (w.length - 15) 0) +
         w.getD (w.length - 16) 0) % 2 ^ 32
      w ++ [t])
    block

/-- One SHA-256 compression round. -/
def sha256Round (st : List Nat) (kw : Nat × Nat) : List Nat :=
  match st with
  | [a, b, c, d, e, f, g, h] =>
      let t1 := (h + sha256BigSigma1 e + sha256Ch e f g + kw.1 + kw.2) % 2 ^ 32
      let t2 := (sha256BigSigma0 a + sha256Maj a b c) % 2 ^ 32
      [(t1 + t2) % 2 ^ 32, a, b, c, (d + t1) % 2 ^ 32, e, f, g]
  | st => st

/-- Process one 16-word block. -/
def sha256Compress (hs : List Nat) (block : List Nat) : List Nat :=
  let final := ((sha256K.zip (sha256Schedule block)).foldl sha256Round hs)
  (hs.zip final).map (fun p => (p.1 + p.2) % 2 ^ 32)

/-- Fold the compression function over all 16-word blocks (the padded
message is always a whole number of blocks). -/
def sha256Blocks (hs : List Nat) : List Nat → List Nat
  | w0 :: w1 :: w2 :: w3 :: w4 :: w5 :: w6 :: w7 ::
    w8 :: w9 :: w10 :: w11 :: w12 :: w13 :: w14 :: w15 :: rest =>
      sha256Blocks
        (sha256Compress hs
          [w0, w1, w2, w3, w4, w5, w6, w7, w8, w9, w10, w11, w12, w13, w14,
           w15])
        rest
  | _ => hs

/-- SHA-256 of a byte list, as 32 digest bytes. -/
def sha256 (msg : List Nat) : List Nat :=
  (sha256Blocks sha256H0 (bytesToWords32 (sha256Pad msg))).flatMap
    (fun w => [w / 16777216 % 256, w / 65536 % 256, w / 256 % 256, w % 256])

/-- The character rewriting `generateCodeChallenge` applies to the `btoa`
output: `+`→`-` and `/`→`_` (the `=` padding is removed separately). -/
def b64UrlReplace (c : Char) : Char :=
  if c = '+' then '-' else if c = '/' then '_' else c

/-- `generateCodeChallenge` (google-handler.ts:204-212): SHA-256 the UTF-8
bytes of the verifier, `btoa` the digest bytes,
`.replace(/\+/g,'-').replace(/\//g,'_').replace(/=/g,'')`. -/
def generateCodeChallenge (verifier : String) : String :=
  String.mk
    (((encodeB64Bytes (sha256 (utf8Bytes verifier))).map b64UrlReplace).filter
      (· ≠ '='))

/-- The spec's words for the challenge (§4.1): "SHA-256 digest of the
verifier bytes, base64url-encoded without padding" — direct base64url
encoding with the URL-safe alphabet and no `=` padding, for comparison with
the implementation's btoa-then-rewrite route. -/
def specBase64UrlNoPad (bytes : List Nat) : List Char :=
  (encodeCoreSextets bytes).map (fun s => b64UrlReplace (sextetChar s))

/-! ## Upstream authorize URL construction

`redirectToGoogle` (google-handler.ts:48-77) and `redirectToCustomOAuth`
(custom-oauth-handler.ts:47-87) build the upstream authorize URL with
`getUpstreamAuthorizeUrl({...})` and append the PKCE parameters. -/

/-- ECMA-262 `encodeURIComponent` unreserved set:
`A–Z a–z 0–9 - _ . ! ~ * ' ( )`. -/
def uriUnreserved (c : Char) : Bool :=
  c.isAlphanum ||
    (c = '-' || c = '_' || c = '.' || c = '!' || c = '~' || c = '*' ||
     c = '\'' || c = '(' || c = ')')

/-- Upper-case hex digit, as `encodeURIComponent` emits. -/
def hexDigitUpper (n : Nat) : Char :=
  if n < 10 then Char.ofNat (48 + n) else Char.ofNat (55 + n)

/-- `encodeURIComponent`: unreserved characters kept, everything else
percent-encoded from its UTF-8 bytes. -/
def encodeURIComponentM (s : String) : String :=
  String.mk
    ((s.data.map (fun c =>
      if uriUnreserved c then [c]
      else (utf8EncodeChar c).map
        (fun b => ['%', hexDigitUpper (b / 16 % 16), hexDigitUpper (b % 16)])
        |>.flatten)).flatten)

/-- `UpstreamAuthorizeParams` from src/types.ts (the `state` field is
optional there; every call site in the handlers supplies it). -/
structure UpstreamAuthorizeParams where
  upstream_url : String
  client_id : String
  scope : String
  redirect_uri : String
  state : String

/-- Modelled from the spec: `getUpstreamAuthorizeUrl` is defined in
`src/auth/oauth-utils.ts`, which is not part of the source snapshot (only
its import sites are).  Spec §4.3 step 7: "Build the upstream authorize URL:
base endpoint + client id + redirect URI + scope + `state`"; the handlers'
comments add that "response_type is already added by
getUpstreamAuthorizeUrl".  Parameter values are URL-encoded as query
components. -/
def getUpstreamAuthorizeUrl (p : UpstreamAuthorizeParams) : String :=
  p.upstream_url ++ "?response_type=code&client_id="
    ++ encodeURIComponentM p.client_id
    ++ "&redirect_uri=" ++ encodeURIComponentM p.redirect_uri
    ++ "&scope=" ++ encodeURIComponentM p.scope
    ++ "&state=" ++ encodeURIComponentM p.state

/-- The `Location` value produced by `redirectToGoogle`
(google-handler.ts:48-77), as a function of the (crypto-random) PKCE
verifier; `none` models the `btoa` throw while building `state`. -/
def googleAuthorizeLocation (googleClientId redirectUri : String)
    (req : AuthorizationRequest) (codeVerifier : String) : Option String :=
  (encodeState req codeVerifier).map fun st =>
    getUpstreamAuthorizeUrl
      ⟨"https://accounts.google.com/o/oauth2/v2/auth", googleClientId,
        "openid profile email https://www.googleapis.com/auth/gmail.send https://www.googleapis.com/auth/gmail.readonly",
        redirectUri, st⟩
      ++ "&code_challenge=" ++ generateCodeChallenge codeVerifier
      ++ "&code_challenge_method=S256"

/-- The `Location` value produced by `redirectToCustomOAuth`
(custom-oauth-handler.ts:47-87): environment defaults
`CUSTOM_OAUTH_URL || 'http://localhost:3000'` and
`CUSTOM_OAUTH_CLIENT_ID || 'demo-client'`, scope `read write`, challenge
passed through `encodeURIComponent`. -/
def customAuthorizeLocation (customOAuthUrl customClientId : Option String)
    (redirectUri : String) (req : AuthorizationRequest)
    (codeVerifier : String) : Option String :=
  (encodeState req codeVerifier).map fun st =>
    getUpstreamAuthorizeUrl
      ⟨jsOrStr customOAuthUrl "http://localhost:3000" ++ "/oauth/authorize",
        jsOrStr customClientId "demo-client", "read write", redirectUri, st⟩
      ++ "&code_challenge="
      ++ encodeURIComponentM (generateCodeChallenge codeVerifier)
      ++ "&code_challenge_method=S256"

/-! ## Callback handlers

The per-provider `GET /<p>/callback` handlers (google-handler.ts:87-192,
keycloak handler 110-252, custom-oauth-handler.ts:97-227) are modelled as
functions of the callback query parameters and of the outcomes of the two
possible outbound calls (token exchange, userinfo fetch); the list of
outbound calls actually issued is returned alongside the result. -/

/-- The two outbound calls a callback can make, in order. -/
inductive UpstreamCall
  | token
  | userinfo
deriving DecidableEq

/-- Outcome of one outbound `fetch` (plus response-body `json()`): either a
thrown exception (carrying the JS error name and message) or a parsed
response. -/
inductive FetchResult (α : Type)
  | threw (name msg : String)
  | got (r : α)

/-- Parsed token-endpoint response: HTTP status flag/fields and the
`access_token` member of the JSON body (absent modelled as `none`). -/
structure TokenResp where
  ok : Bool
  status : Nat
  statusText : String
  accessToken : Option String

/-- Parsed userinfo response with provider-specific payload `α`. -/
structure UserResp (α : Type) where
  ok : Bool
  status : Nat
  statusText : String
  payload : α

/-- The two outbound-call outcomes available to one callback invocation. -/
structure UpstreamNet (α : Type) where
  token : FetchResult TokenResp
  user : FetchResult (UserResp α)

/-- Google userinfo payload: only `email` influences control flow
(google-handler.ts:167-170); the remaining fields are passed through. -/
structure GoogleUser where
  email : Option String

/-- Keycloak userinfo payload fields used by the login derivation
(keycloak handler line 218-221). -/
structure KeycloakUser where
  preferred_username : Option String
  email : Option String
  sub : Option String
deriving DecidableEq

/-- Custom-OAuth userinfo payload fields used by the login derivation
(custom-oauth-handler.ts:194-198). -/
structure CustomUser where
  username : Option String
  user_id : Option String

/-- Query parameters of a provider callback request. -/
structure CallbackQuery where
  state : Option String
  code : Option String

/-- Result of one callback invocation: an uncaught exception, a plain
`c.text(status)` response, or a completed authorization (control reached
`completeAuthorization` with the given login / `userId`, followed by the
redirect to the downstream client). -/
inductive HandlerResult
  | thrown (err : String)
  | response (status : Nat) (body : String)
  | completed (login : String)
deriving DecidableEq

/-- Keycloak login derivation (keycloak handler line 221):
`preferred_username || email?.split('@')[0] || sub || 'unknown'`. -/
def keycloakLogin (u : KeycloakUser) : String :=
  jsOrStr u.preferred_username
    (jsOrStr (u.email.map localPart) (jsOrStr u.sub "unknown"))

/-- Custom-OAuth login derivation (custom-oauth-handler.ts:197):
`username || user_id || 'demo_user'`. -/
def customLogin (u : CustomUser) : String :=
  jsOrStr u.username (jsOrStr u.user_id "demo_user")

/-- The Google `GET /callback` handler (google-handler.ts:87-192). -/
def googleCallback (q : CallbackQuery) (net : UpstreamNet GoogleUser) :
    HandlerResult × List UpstreamCall :=
  match decodeState (q.state.getD "undefined") with
  | none => (.thrown "SyntaxError", [])
  | some (req, _verifier) =>
    if req.clientId = "" then (.response 400 "Invalid state", [])
    else if !(jsTruthy q.code) then
      (.response 400 "Missing authorization code. Please try again.", [])
    else
      match net.token with
      | .threw _ _ =>
          (.response 500 "Network error during authentication. Please try again.",
           [.token])
      | .got tr =>
        if !tr.ok then
          (.response 500 ("Failed to fetch access token: " ++ toString tr.status),
           [.token])
        else if !(jsTruthy tr.accessToken) then
          (.response 400 "Missing access token", [.token])
        else
          match net.user with
          | .threw _ _ =>
              (.response 500
                "Network error while fetching user information. Please try again.",
               [.token, .userinfo])
          | .got ur =>
            if !ur.ok then
              (.response 500
                ("Failed to fetch user info: " ++ toString ur.status),
               [.token, .userinfo])
            else
              match ur.payload.email with
              | none => (.thrown "TypeError", [.token, .userinfo])
              | some e => (.completed (localPart e), [.token, .userinfo])

/-- The `catch` classification of the Keycloak callback (lines 201-216). -/
def keycloakCatchText (name msg : String) : String :=
  if containsSub msg "Network connection lost" ||
      containsSub msg "fetch failed" || name = "TypeError" then
    "Network connectivity issue. Please check your internet connection and try again. If using a proxy, ensure it allows connections to Keycloak."
  else "Keycloak integration error: " ++ msg

/-- The Keycloak `GET /callback` handler (keycloak handler lines 110-252). -/
def keycloakCallback (q : CallbackQuery) (net : UpstreamNet KeycloakUser) :
    HandlerResult × List UpstreamCall :=
  match decodeState (q.state.getD "undefined") with
  | none => (.thrown "SyntaxError", [])
  | some (req, _verifier) =>
    if req.clientId = "" then (.response 400 "Invalid state", [])
    else if !(jsTruthy q.code) then
      (.response 400 "Missing authorization code", [])
    else
      match net.token with
      | .threw name msg => (.response 500 (keycloakCatchText name msg), [.token])
      | .got tr =>
        if !tr.ok then
          (.response 500 ("Failed to fetch access token: " ++ toString tr.status
            ++ " " ++ tr.statusText), [.token])
        else if !(jsTruthy tr.accessToken) then
          (.response 400 "Missing access token in response", [.token])
        else
          match net.user with
          | .threw name msg =>
              (.response 500 (keycloakCatchText name msg), [.token, .userinfo])
          | .got ur =>
            if !ur.ok then
              (.response 500 ("Failed to fetch user info: " ++ toString ur.status
                ++ " " ++ ur.statusText), [.token, .userinfo])
            else (.completed (keycloakLogin ur.payload), [.token, .userinfo])

/-- The `catch` classification of the custom-OAuth callback (lines 177-192). -/
def customCatchText (name msg : String) : String :=
  if containsSub msg "Network connection lost" ||
      containsSub msg "fetch failed" || name = "TypeError" then
    "Network connectivity issue. Please check your internet connection and try again. If using a proxy, ensure it allows connections to the custom OAuth server."
  else "Custom OAuth integration error: " ++ msg

/-- The custom-OAuth `GET /callback` handler
(custom-oauth-handler.ts:97-227). -/
def customCallback (q : CallbackQuery) (net : UpstreamNet CustomUser) :
    HandlerResult × List UpstreamCall :=
  match decodeState (q.state.getD "undefined") with
  | none => (.thrown "SyntaxError", [])
  | some (req, _verifier) =>
    if req.clientId = "" then (.response 400 "Invalid state", [])
    else if !(jsTruthy q.code) then
      (.response 400 "Missing authorization code", [])
    else
      match net.token with
      | .threw name msg => (.response 500 (customCatchText name msg), [.token])
      | .got tr =>
        if !tr.ok then
          (.response 500 ("Failed to fetch access token: " ++ toString tr.status
            ++ " " ++ tr.statusText), [.token])
        else if !(jsTruthy tr.accessToken) then
          (.response 400 "Missing access token in response", [.token])
        else
          match net.user with
          | .threw name msg =>
              (.response 500 (customCatchText name msg), [.token, .userinfo])
          | .got ur =>
            if !ur.ok then
              (.response 500 ("Failed to fetch user info: " ++ toString ur.status
                ++ " " ++ ur.statusText), [.token, .userinfo])
            else (.completed (customLogin ur.payload), [.token, .userinfo])

/-! ## Provider router

Both worker entry points build the same `authRouter`: five mounted
per-provider sub-routers plus a root `GET /authorize`
(index.ts lines 289-359, index_sentry.ts lines 20-90).  Only index.ts also
registers a root `GET /callback` (lines 362-440) which infers the provider
from callback query parameters; index_sentry.ts removed it (lines 92-93). -/

/-- Environment variables consulted by the provider-detection logic. -/
structure ProviderEnv where
  GITHUB_CLIENT_ID : Option String := none
  GOOGLE_CLIENT_ID : Option String := none
  AUTH0_DOMAIN : Option String := none
  AUTH0_CLIENT_ID : Option String := none
  KEYCLOAK_DOMAIN : Option String := none
  KEYCLOAK_CLIENT_ID : Option String := none
  CUSTOM_OAUTH_URL : Option String := none
deriving DecidableEq

/-- The configured-provider list of the root `/authorize` handler
(index.ts:311-316 and identically index_sentry.ts:42-47): name and path per
provider, in the fixed detection order. -/
def configuredProviders (env : ProviderEnv) : List (String × String) :=
  (if jsTruthy env.GITHUB_CLIENT_ID then [("GitHub", "/github")] else []) ++
  (if jsTruthy env.GOOGLE_CLIENT_ID then [("Google", "/google")] else []) ++
  (if jsTruthy env.AUTH0_DOMAIN && jsTruthy env.AUTH0_CLIENT_ID then
    [("Auth0", "/auth0")] else []) ++
  (if jsTruthy env.KEYCLOAK_DOMAIN && jsTruthy env.KEYCLOAK_CLIENT_ID then
    [("Keycloak", "/keycloak")] else []) ++
  (if jsTruthy env.CUSTOM_OAUTH_URL then [("Custom OAuth", "/custom")] else [])

/-- JS `String.prototype.split` on a single separator character. -/
def splitOnChar (sep : Char) : List Char → List (List Char)
  | [] => [[]]
  | c :: cs =>
      if c = sep then [] :: splitOnChar sep cs
      else
        match splitOnChar sep cs with
        | [] => [[c]]
        | p :: ps => (c :: p) :: ps

/-- `c.req.url.includes('?') ? c.req.url.split('?')[1] : ''`
(index.ts:320/327, index_sentry.ts:51/58): the piece of the URL between the
first and second `'?'`. -/
def urlQueryPart (url : String) : String :=
  match splitOnChar '?' url.data with
  | _ :: q :: _ => String.mk q
  | _ => ""

/-- Everything after the first `'?'` of a URL — the raw query string, for
comparison with what the router actually forwards. -/
def rawQueryString (url : String) : String :=
  match url.data.dropWhile (· ≠ '?') with
  | _ :: rest => String.mk rest
  | [] => ""

/-- Result of a root-router request: a redirect, the provider-selection HTML
page (abstracted to its link data), or a plain error response. -/
inductive RootResult
  | redirect (location : String)
  | selectionPage (providers : List (String × String)) (queryString : String)
  | errorText (status : Nat) (body : String)
deriving DecidableEq

/-- The root `GET /authorize` handler (index.ts:307-359,
index_sentry.ts:38-90). -/
def rootAuthorize (env : ProviderEnv) (url : String) : RootResult :=
  let providers := configuredProviders env
  if providers.length = 1 then
    let qs := urlQueryPart url
    .redirect ((providers.headD ("", "")).2 ++ "/authorize" ++
      (if qs ≠ "" then "?" ++ qs else ""))
  else if providers.length > 1 then
    .selectionPage providers (urlQueryPart url)
  else
    .errorText 500
      "No OAuth providers configured. Please check your environment variables."

/-- Paths with a `GET` route registered directly on the index.ts
`authRouter` (lines 307 and 362). -/
def indexRouterGets : List String := ["/authorize", "/callback"]

/-- Paths with a `GET` route registered directly on the index_sentry.ts
`authRouter` (line 38; the generic callback handler was removed,
lines 92-93). -/
def sentryRouterGets : List String := ["/authorize"]

/-- Per-provider sub-router mounts, identical in both entry points. -/
def routerMounts : List String :=
  ["/github", "/google", "/auth0", "/keycloak", "/custom"]

/-- Query parameters inspected by the index.ts root `GET /callback`
handler. -/
structure RootCallbackQuery where
  code : Option String := none
  scope : Option String := none
  session_state : Option String := none
  iss : Option String := none
  authuser : Option String := none
deriving DecidableEq

/-- The provider-detection heuristic of the index.ts root callback
(index.ts:374-403): inspects `iss`, `session_state`, `scope`, `authuser`,
the authorization-code length, and which providers are configured. -/
def detectProviderPath (env : ProviderEnv) (q : RootCallbackQuery) : String :=
  if jsTruthy q.iss &&
      (containsSub (q.iss.getD "") "keycloak" ||
       containsSub (q.iss.getD "") "localhost:8080") then "/keycloak"
  else if jsTruthy q.session_state && jsTruthy q.iss then "/keycloak"
  else if jsTruthy q.scope && containsSub (q.scope.getD "") "googleapis.com" then
    "/google"
  else if q.authuser.isSome then "/google"
  else if jsTruthy q.scope && containsSub (q.scope.getD "") "openid" &&
      jsTruthy env.AUTH0_DOMAIN then "/auth0"
  else if jsTruthy env.AUTH0_DOMAIN && jsTruthy env.AUTH0_CLIENT_ID then "/auth0"
  else if (q.code.getD "").length > 60 && jsTruthy env.CUSTOM_OAUTH_URL then
    "/custom"
  else if jsTruthy env.GITHUB_CLIENT_ID then "/github"
  else ""

/-- The single-configured-provider fallback of the index.ts root callback
(index.ts:406-418). -/
def detectProviderPathWithFallback (env : ProviderEnv) (q : RootCallbackQuery) :
    String :=
  let p := detectProviderPath env q
  if p = "" then
    let cfg := (configuredProviders env).map (·.2)
    if cfg.length = 1 then cfg.headD "" else ""
  else p

/-- The index.ts root `GET /callback` handler (lines 362-440): requires a
`code`, infers the provider, and redirects to
`/<provider>/callback` preserving the query (`search`). -/
def rootCallback (env : ProviderEnv) (q : RootCallbackQuery)
    (search : String) : RootResult :=
  if !(jsTruthy q.code) then .errorText 400 "Missing authorization code"
  else
    let p := detectProviderPathWithFallback env q
    if p = "" then
      .errorText 400
        "Unable to determine OAuth provider from callback. Please check your configuration."
    else .redirect (p ++ "/callback" ++ search)

/-- Auth0 userinfo payload fields used by the login derivation.  The Auth0
handler's full source ships in the snapshot as the second document of
src/tools/github-tools-sentry.ts (lines 232–493, `export { app as
Auth0Handler }`); the destructured fields are at its line 441. -/
structure Auth0User where
  nickname : Option String
  email : Option String
  sub : Option String

/-- JS `sub.split('|')[1]`: the piece of `sub` between the first and second
`'|'`, absent when `sub` contains no `'|'`. -/
def auth0SubPiece (sub : String) : Option String :=
  ((splitOnChar '|' sub.data)[1]?).map String.mk

/-- The `sub` tail of the Auth0 login chain, `sub.split('|')[1] ||
'unknown'`: evaluated only when the earlier alternatives are falsy, it
throws (`.error`) when `sub` is absent (`undefined.split`), and an absent
or empty piece falls through to `"unknown"`. -/
def auth0SubLogin (u : Auth0User) : Except String String :=
  match u.sub with
  | none => .error "TypeError"
  | some s =>
      match auth0SubPiece s with
      | some piece => if piece ≠ "" then .ok piece else .ok "unknown"
      | none => .ok "unknown"

/-- The email fallback of the Auth0 login chain: the local part of `email`
when truthy, else the `sub` tail. -/
def auth0EmailLogin (u : Auth0User) : Except String String :=
  match u.email with
  | some e => if localPart e ≠ "" then .ok (localPart e) else auth0SubLogin u
  | none => auth0SubLogin u

/-- Auth0 login derivation (auth0 handler line 444):
`nickname || email?.split('@')[0] || sub.split('|')[1] || 'unknown'`. -/
def auth0Login (u : Auth0User) : Except String String :=
  match u.nickname with
  | some n => if n ≠ "" then .ok n else auth0EmailLogin u
  | none => auth0EmailLogin u

/-- The `catch` classification of the Auth0 callback (auth0 handler lines
425–440). -/
def auth0CatchText (name msg : String) : String :=
  if containsSub msg "Network connection lost" ||
      containsSub msg "fetch failed" || name = "TypeError" then
    "Network connectivity issue. Please check your internet connection and try again. If using a proxy, ensure it allows connections to Auth0."
  else "Auth0 integration error: " ++ msg

/-- The Auth0 `GET /callback` handler (auth0 handler lines 344–471, i.e.
src/tools/github-tools-sentry.ts second document). -/
def auth0Callback (q : CallbackQuery) (net : UpstreamNet Auth0User) :
    HandlerResult × List UpstreamCall :=
  match decodeState (q.state.getD "undefined") with
  | none => (.thrown "SyntaxError", [])
  | some (req, _verifier) =>
    if req.clientId = "" then (.response 400 "Invalid state", [])
    else if !(jsTruthy q.code) then
      (.response 400 "Missing authorization code", [])
    else
      match net.token with
      | .threw name msg => (.response 500 (auth0CatchText name msg), [.token])
      | .got tr =>
        if !tr.ok then
          (.response 500 ("Failed to fetch access token: " ++ toString tr.status
            ++ " " ++ tr.statusText), [.token])
        else if !(jsTruthy tr.accessToken) then
          (.response 400 "Missing access token in response", [.token])
        else
          match net.user with
          | .threw name msg =>
              (.response 500 (auth0CatchText name msg), [.token, .userinfo])
          | .got ur =>
            if !ur.ok then
              (.response 500 ("Failed to fetch user info: " ++ toString ur.status
                ++ " " ++ ur.statusText), [.token, .userinfo])
            else
              match auth0Login ur.payload with
              | .error e => (.thrown e, [.token, .userinfo])
              | .ok l => (.completed l, [.token, .userinfo])

/-- Modelled from the spec: the GitHub callback handler
(`src/auth/github-handler.ts`) is the one handler not part of the source
snapshot (only its import sites in the entry points are), so the common
callback algorithm of §4.4 steps 1–7 stands in for it: decode `state`
(missing/invalid client id ⇒ terminal failure), require `code` (absent ⇒
400-equivalent), exchange the code (non-2xx ⇒ terminal failure, not
retried), require `access_token`, fetch userinfo (non-2xx ⇒ terminal
failure), then complete.  Error bodies carry the §7 category names. -/
def specAdapterCallback (q : CallbackQuery) (net : UpstreamNet Unit) :
    HandlerResult × List UpstreamCall :=
  match decodeState (q.state.getD "undefined") with
  | none => (.response 400 "MalformedRequest", [])
  | some (req, _verifier) =>
    if req.clientId = "" then (.response 400 "MalformedRequest", [])
    else if !(jsTruthy q.code) then (.response 400 "MalformedRequest", [])
    else
      match net.token with
      | .threw _ _ => (.response 500 "ConnectivityFailure", [.token])
      | .got tr =>
        if !tr.ok then (.response 500 "UpstreamRejected", [.token])
        else if !(jsTruthy tr.accessToken) then
          (.response 500 "MissingToken", [.token])
        else
          match net.user with
          | .threw _ _ =>
              (.response 500 "ConnectivityFailure", [.token, .userinfo])
          | .got ur =>
            if !ur.ok then
              (.response 500 "UpstreamRejected", [.token, .userinfo])
            else (.completed "login", [.token, .userinfo])

/-! ## Spec-side login derivations for Keycloak (refinement comparison)

Two further definitions follow the words of claim C9 rather than the code:
`keycloakLoginClaim` transcribes the claim as stated, `keycloakLoginAmended`
the claim with non-emptiness added at the email-local-part and `sub`
fallbacks. -/

/-- The claim's fallback after `preferred_username`: "the local part of email
before '@' when email is present, else sub when present, else
\"unknown\"". -/
def keycloakClaimEmailFallback (u : KeycloakUser) : String :=
  match u.email with
  | some e => localPart e
  | none =>
      match u.sub with
      | some s => s
      | none => "unknown"

/-- Claim C9 as stated: `preferred_username` when present and non-empty, else
the email fallback above. -/
def keycloakLoginClaim (u : KeycloakUser) : String :=
  match u.preferred_username with
  | some p => if p ≠ "" then p else keycloakClaimEmailFallback u
  | none => keycloakClaimEmailFallback u

/-- The amended `sub` fallback: `sub` only when present and non-empty. -/
def keycloakAmendedSubFallback (u : KeycloakUser) : String :=
  match u.sub with
  | some s => if s ≠ "" then s else "unknown"
  | none => "unknown"

/-- The amended email fallback: the local part only when email is present and
that local part is non-empty. -/
def keycloakAmendedEmailFallback (u : KeycloakUser) : String :=
  match u.email with
  | some e => if localPart e ≠ "" then localPart e else
      keycloakAmendedSubFallback u
  | none => keycloakAmendedSubFallback u

/-- Claim C9 amended: non-emptiness required at every fallback level, not
just for `preferred_username`. -/
def keycloakLoginAmended (u : KeycloakUser) : String :=
  match u.preferred_username with
  | some p => if p ≠ "" then p else keycloakAmendedEmailFallback u
  | none => keycloakAmendedEmailFallback u

/-! ## Concrete inputs reused by witnesses and counterexamples -/

/-- A concrete valid `AuthorizationRequest`. -/
def reqA : AuthorizationRequest :=
  ⟨"code", "client-1", "https://app.example/cb", "read profile", "xyz"⟩

/-- A concrete PKCE verifier. -/
def verA : String := "dBjftJeZ4CVP-mB92K27uhbUJU1p1r_wW1gFWFOEjXk"

theorem sextetChar_lt (n : Nat) : ∃ m, m < 64 ∧ sextetChar n = b64Alphabet.getD m '?' :=
  ⟨n % 64, Nat.mod_lt _ (by norm_num), rfl⟩

theorem getD_ne_pad : ∀ m, m < 64 → b64Alphabet.getD m '?' ≠ '=' := by decide

theorem sextetChar_ne_pad (n : Nat) : sextetChar n ≠ '=' := by
  obtain ⟨m, hm, he⟩ := sextetChar_lt n
  rw [he]; exact getD_ne_pad m hm

theorem charSextet_sextetChar (s : Nat) (h : s < 64) :
    charSextet (sextetChar s) = some s := by
  have : ∀ m, m < 64 → charSextet (sextetChar m) = some m := by decide
  exact this s h

/-- `encodeB64Bytes` is the padded form of the core sextet characters. -/
theorem encodeB64Bytes_eq_core (bs : List Nat) :
    encodeB64Bytes bs =
      (encodeCoreSextets bs).map sextetChar ++
        List.replicate ((3 - bs.length % 3) % 3) '=' := by
  induction bs using encodeB64Bytes.induct with
  | case1 => rfl
  | case2 b1 => rfl
  | case3 b1 b2 => rfl
  | case4 b1 b2 b3 rest ih =>
      simp only [encodeB64Bytes, encodeCoreSextets, List.map_cons, List.length_cons]
      rw [ih]
      have : (rest.length + 1 + 1 + 1) % 3 = rest.length % 3 := by omega
      rw [this]
      simp

theorem encodeCoreSextets_ne_pad (bs : List Nat) :
    ∀ c ∈ (encodeCoreSextets bs).map sextetChar, c ≠ '=' := by
  intro c hc
  rw [List.mem_map] at hc
  obtain ⟨s, _, rfl⟩ := hc
  exact sextetChar_ne_pad s

/-- One unfolding step of `stripPad` when the head is not the last one or two
padding characters. -/
theorem stripPad_cons_ne (a : Char) (l : List Char)
    (h1 : ¬(a = '=' ∧ l = [])) (h2 : ¬(a = '=' ∧ l = ['='])) :
    stripPad (a :: l) = a :: stripPad l := by
  unfold stripPad
  split <;> simp_all
  rw [stripPad.eq_def]

/-- Stripping the padding appended after a pad-free prefix recovers the
prefix. -/
theorem stripPad_append_pad (l : List Char) (k : Nat) (hk : k ≤ 2)
    (hl : ∀ c ∈ l, c ≠ '=') :
    stripPad (l ++ List.replicate k '=') = l := by
  induction l with
  | nil =>
      interval_cases k <;> rfl
  | cons c l' ih =>
      have hc : c ≠ '=' := hl c (by simp)
      have hl' : ∀ x ∈ l', x ≠ '=' := fun x hx => hl x (by simp [hx])
      rw [List.cons_append,
        stripPad_cons_ne c _ (by simp [hc]) (by simp [hc]), ih hl']

theorem encodeB64Bytes_length_mod (bs : List Nat) :
    (encodeB64Bytes bs).length % 4 = 0 := by
  induction bs using encodeB64Bytes.induct with
  | case1 => rfl
  | case2 b1 => simp [encodeB64Bytes]
  | case3 b1 b2 => simp [encodeB64Bytes]
  | case4 b1 b2 b3 rest ih =>
      simp only [encodeB64Bytes, List.length_cons]
      omega

theorem encodeCoreSextets_length_mod (bs : List Nat) :
    (encodeCoreSextets bs).length % 4 ≠ 1 := by
  induction bs using encodeCoreSextets.induct with
  | case1 => simp [encodeCoreSextets]
  | case2 b1 => simp [encodeCoreSextets]
  | case3 b1 b2 => simp [encodeCoreSextets]
  | case4 b1 b2 b3 rest ih =>
      simp only [encodeCoreSextets, List.length_cons]
      omega

theorem encodeCoreSextets_lt (bs : List Nat) (h : ∀ b ∈ bs, b < 256) :
    ∀ s ∈ encodeCoreSextets bs, s < 64 := by
  induction bs using encodeCoreSextets.induct with
  | case1 => simp [encodeCoreSextets]
  | case2 b1 =>
      have := h b1 (by simp)
      simp only [encodeCoreSextets, List.mem_cons, List.not_mem_nil, or_false]
      rintro s (rfl | rfl) <;> omega
  | case3 b1 b2 =>
      have h1 := h b1 (by simp); have h2 := h b2 (by simp)
      simp only [encodeCoreSextets, List.mem_cons, List.not_mem_nil, or_false]
      rintro s (rfl | rfl | rfl) <;> omega
  | case4 b1 b2 b3 rest ih =>
      have h1 := h b1 (by simp); have h2 := h b2 (by simp)
      have h3 := h b3 (by simp)
      have hr : ∀ b ∈ rest, b < 256 := fun b hb => h b (by simp [hb])
      simp only [encodeCoreSextets, List.mem_cons]
      rintro s (rfl | rfl | rfl | rfl | hs)
      · omega
      · omega
      · omega
      · omega
      · exact ih hr s hs

theorem seqMap_charSextet (l : List Nat) (h : ∀ s ∈ l, s < 64) :
    seqMap charSextet (l.map sextetChar) = some l := by
  induction l with
  | nil => rfl
  | cons s l' ih =>
      have hs := h s (by simp)
      have hl' : ∀ x ∈ l', x < 64 := fun x hx => h x (by simp [hx])
      simp only [List.map_cons, seqMap, charSextet_sextetChar s hs, ih hl']

theorem sextetsToBytes_encodeCoreSextets (bs : List Nat)
    (h : ∀ b ∈ bs, b < 256) :
    sextetsToBytes (encodeCoreSextets bs) = bs := by
  induction bs using encodeCoreSextets.induct with
  | case1 => rfl
  | case2 b1 =>
      have := h b1 (by simp)
      simp only [encodeCoreSextets, sextetsToBytes]
      congr 1
      omega
  | case3 b1 b2 =>
      have h1 := h b1 (by simp); have h2 := h b2 (by simp)
      simp only [encodeCoreSextets, sextetsToBytes]
      congr 1
      · omega
      · congr 1; omega
  | case4 b1 b2 b3 rest ih =>
      have h1 := h b1 (by simp); have h2 := h b2 (by simp)
      have h3 := h b3 (by simp)
      have hr : ∀ b ∈ rest, b < 256 := fun b hb => h b (by simp [hb])
      simp only [encodeCoreSextets, sextetsToBytes]
      rw [ih hr]
      congr 1
      · omega
      · congr 1
        · omega
        · congr 1; omega

/-- Base64 round trip on bytes: forgiving decode inverts `encodeB64Bytes`. -/
theorem atobChars_encodeB64Bytes (bs : List Nat) (h : ∀ b ∈ bs, b < 256) :
    atobChars (encodeB64Bytes bs) = some bs := by
  have h1 : (encodeB64Bytes bs).length % 4 = 0 := encodeB64Bytes_length_mod bs
  have h2 : stripPad (encodeB64Bytes bs) = (encodeCoreSextets bs).map sextetChar := by
    rw [encodeB64Bytes_eq_core bs]
    exact stripPad_append_pad _ _ (by omega) (encodeCoreSextets_ne_pad bs)
  have h3 : ¬ (encodeCoreSextets bs).length % 4 = 1 :=
    encodeCoreSextets_length_mod bs
  simp [atobChars, h1, h2, h3, seqMap_charSextet _ (encodeCoreSextets_lt bs h),
    sextetsToBytes_encodeCoreSextets bs h]

/-- `atob` inverts `btoa` whenever `btoa` succeeds. -/
theorem atobM_btoaM (s t : String) (h : btoaM s = some t) : atobM t = some s := by
  unfold btoaM at h
  split at h
  · next hall =>
      rw [Option.some.injEq] at h
      subst h
      unfold atobM
      have hlt : ∀ b ∈ s.data.map Char.toNat, b < 256 := by
        intro b hb
        rw [List.mem_map] at hb
        obtain ⟨c, hc, rfl⟩ := hb
        simpa using (List.all_eq_true.mp hall) c hc
      rw [show (String.mk (encodeB64Bytes (s.data.map Char.toNat))).data
            = encodeB64Bytes (s.data.map Char.toNat) from rfl]
      rw [atobChars_encodeB64Bytes _ hlt]
      show some (String.mk ((s.data.map Char.toNat).map Char.ofNat)) = some s
      rw [List.map_map]
      have hmap : s.data.map (Char.ofNat ∘ Char.toNat) = s.data := by
        calc s.data.map (Char.ofNat ∘ Char.toNat) = s.data.map id := by
              apply List.map_congr_left
              intro c _
              exact Char.ofNat_toNat c
          _ = s.data := List.map_id s.data
      rw [hmap]
  · simp at h

theorem hexVal_hexDigitChar (m : Nat) (h : m < 16) :
    hexVal (hexDigitChar m) = some m := by
  have : ∀ k, k < 16 → hexVal (hexDigitChar k) = some k := by decide
  exact this m h

/-- One parser step: a single-character escape (`e` not `u`) prepends its
decoded character. -/
theorem pjsb_esc_step (e c : Char) (he : jsonEscChar e = some c)
    (hne : e ≠ 'u') (s' rest X : List Char)
    (hX : parseJsonStringBody X = some (s', rest)) :
    parseJsonStringBody ('\\' :: e :: X) = some (c :: s', rest) := by
  rw [parseJsonStringBody.eq_4 e X (fun _ _ _ _ _ heq _ => hne heq)]
  rw [he, hX]

/-- One parser step: a `\u00XX` escape decodes to the character with that
code point. -/
theorem pjsb_u_step (d1 d2 : Char) (v1 v2 : Nat)
    (h1 : hexVal d1 = some v1) (h2 : hexVal d2 = some v2)
    (s' rest X : List Char)
    (hX : parseJsonStringBody X = some (s', rest)) :
    parseJsonStringBody ('\\' :: 'u' :: '0' :: '0' :: d1 :: d2 :: X)
      = some (Char.ofNat (0 * 4096 + 0 * 256 + v1 * 16 + v2) :: s', rest) := by
  rw [parseJsonStringBody.eq_3, h1, h2, hX]
  rfl

/-- One parser step: an unescaped non-control character is kept verbatim. -/
theorem pjsb_plain_step (c : Char) (hq : c ≠ '"') (hb : c ≠ '\\')
    (hc : ¬ c.toNat < 32) (s' rest X : List Char)
    (hX : parseJsonStringBody X = some (s', rest)) :
    parseJsonStringBody (c :: X) = some (c :: s', rest) := by
  rw [parseJsonStringBody.eq_5 c X (fun h => hq h)
    (fun _ _ _ _ _ h _ => absurd h hb) (fun _ _ h _ => absurd h hb)]
  rw [if_neg hc, hX]

/-- Parsing the escaped form of a string recovers it, leaving the input after
the closing quote untouched. -/
theorem parseJsonStringBody_escChars (s : List Char) (rest : List Char) :
    parseJsonStringBody ((s.map escapeChar).flatten ++ '"' :: rest)
      = some (s, rest) := by
  induction s with
  | nil => rfl
  | cons c s' ih =>
      simp only [List.map_cons, List.flatten_cons, List.append_assoc]
      by_cases h1 : c = '"'
      · subst h1
        rw [show escapeChar '"' = ['\\', '"'] from rfl]
        exact pjsb_esc_step _ _ (by decide) (by decide) _ _ _ ih
      by_cases h2 : c = '\\'
      · subst h2
        rw [show escapeChar '\\' = ['\\', '\\'] from by
          unfold escapeChar; rw [if_neg (by decide), if_pos rfl]]
        exact pjsb_esc_step _ _ (by decide) (by decide) _ _ _ ih
      by_cases h3 : c = '\x08'
      · subst h3
        rw [show escapeChar '\x08' = ['\\', 'b'] from by
          unfold escapeChar
          rw [if_neg (by decide), if_neg (by decide), if_pos rfl]]
        exact pjsb_esc_step _ _ (by decide) (by decide) _ _ _ ih
      by_cases h4 : c = '\t'
      · subst h4
        rw [show escapeChar '\t' = ['\\', 't'] from by
          unfold escapeChar
          rw [if_neg (by decide), if_neg (by decide), if_neg (by decide),
            if_pos rfl]]
        exact pjsb_esc_step _ _ (by decide) (by decide) _ _ _ ih
      by_cases h5 : c = '\n'
      · subst h5
        rw [show escapeChar '\n' = ['\\', 'n'] from by
          unfold escapeChar
          rw [if_neg (by decide), if_neg (by decide), if_neg (by decide),
            if_neg (by decide), if_pos rfl]]
        exact pjsb_esc_step _ _ (by decide) (by decide) _ _ _ ih
      by_cases h6 : c = '\x0c'
      · subst h6
        rw [show escapeChar '\x0c' = ['\\', 'f'] from by
          unfold escapeChar
          rw [if_neg (by decide), if_neg (by decide), if_neg (by decide),
            if_neg (by decide), if_neg (by decide), if_pos rfl]]
        exact pjsb_esc_step _ _ (by decide) (by decide) _ _ _ ih
      by_cases h7 : c = '\r'
      · subst h7
        rw [show escapeChar '\r' = ['\\', 'r'] from by
          unfold escapeChar
          rw [if_neg (by decide), if_neg (by decide), if_neg (by decide),
            if_neg (by decide), if_neg (by decide), if_neg (by decide),
            if_pos rfl]]
        exact pjsb_esc_step _ _ (by decide) (by decide) _ _ _ ih
      by_cases h8 : c.toNat < 32
      · -- control character, emitted as \u00XX
        have hesc : escapeChar c =
            ['\\', 'u', '0', '0', hexDigitChar (c.toNat / 16),
              hexDigitChar (c.toNat % 16)] := by
          unfold escapeChar
          rw [if_neg h1, if_neg h2, if_neg h3, if_neg h4, if_neg h5,
            if_neg h6, if_neg h7, if_pos h8]
        rw [hesc]
        have hdiv : c.toNat / 16 < 16 := by omega
        have hmod : c.toNat % 16 < 16 := by omega
        rw [show (['\\', 'u', '0', '0', hexDigitChar (c.toNat / 16),
              hexDigitChar (c.toNat % 16)] : List Char)
              ++ ((s'.map escapeChar).flatten ++ '"' :: rest)
            = '\\' :: 'u' :: '0' :: '0' :: hexDigitChar (c.toNat / 16) ::
              hexDigitChar (c.toNat % 16) ::
              ((s'.map escapeChar).flatten ++ '"' :: rest) from rfl]
        rw [pjsb_u_step _ _ _ _ (hexVal_hexDigitChar _ hdiv)
          (hexVal_hexDigitChar _ hmod) _ _ _ ih]
        have he : (0 * 4096 + 0 * 256 + c.toNat / 16 * 16 + c.toNat % 16)
            = c.toNat := by omega
        rw [he, Char.ofNat_toNat]
      · -- plain character
        have hesc : escapeChar c = [c] := by
          unfold escapeChar
          rw [if_neg h1, if_neg h2, if_neg h3, if_neg h4, if_neg h5,
            if_neg h6, if_neg h7, if_neg h8]
        rw [hesc]
        exact pjsb_plain_step c h1 h2 h8 _ _ _ ih

theorem expectChars_append (p cs : List Char) :
    expectChars p (p ++ cs) = some cs := by
  induction p with
  | nil => rfl
  | cons c p' ih => simp [expectChars, ih]

theorem parseJsonStringBody_escChars' (s : String) (rest : List Char) :
    parseJsonStringBody (escChars s ++ '"' :: rest) = some (s.data, rest) :=
  parseJsonStringBody_escChars s.data rest

theorem parseStateChars_encodeStateChars
    (req : AuthorizationRequest) (v : String) :
    parseStateChars (encodeStateChars req v) = some (req, v) := by
  unfold encodeStateChars parseStateChars
  simp only [expectChars_append, parseJsonStringBody_escChars',
    Option.bind_eq_bind, Option.some_bind, List.isEmpty_nil, if_true]
  rfl

theorem b64UrlReplace_ne_plus_slash (c : Char) :
    b64UrlReplace c ≠ '+' ∧ b64UrlReplace c ≠ '/' := by
  unfold b64UrlReplace
  split_ifs with h1 h2
  · exact ⟨by decide, by decide⟩
  · exact ⟨by decide, by decide⟩
  · exact ⟨h1, h2⟩

theorem b64UrlReplace_eq_pad (c : Char) (h : b64UrlReplace c = '=') :
    c = '=' := by
  unfold b64UrlReplace at h
  split_ifs at h
  · exact absurd h (by decide)
  · exact absurd h (by decide)
  · exact h

/-- The btoa-then-rewrite route of `generateCodeChallenge` agrees with direct
base64url encoding without padding. -/
theorem filter_map_encodeB64 (bs : List Nat) :
    ((encodeB64Bytes bs).map b64UrlReplace).filter (· ≠ '=')
      = specBase64UrlNoPad bs := by
  rw [encodeB64Bytes_eq_core, List.map_append, List.filter_append]
  have h1 : ((List.map sextetChar (encodeCoreSextets bs)).map
      b64UrlReplace).filter (· ≠ '=')
      = (List.map sextetChar (encodeCoreSextets bs)).map b64UrlReplace := by
    rw [List.filter_eq_self]
    intro a ha
    rw [List.mem_map] at ha
    obtain ⟨x, hx, rfl⟩ := ha
    rw [List.mem_map] at hx
    obtain ⟨s, _, rfl⟩ := hx
    simpa using fun hpad =>
      sextetChar_ne_pad s (b64UrlReplace_eq_pad _ hpad)
  have h2 : ((List.replicate ((3 - bs.length % 3) % 3) '=').map
      b64UrlReplace).filter (· ≠ '=') = [] := by
    rw [List.map_replicate]
    rw [show b64UrlReplace '=' = '=' from by decide]
    rw [List.filter_eq_nil_iff]
    intro a ha
    rw [List.eq_of_mem_replicate ha]
    simp
  rw [h1, h2, List.append_nil, List.map_map]
  rfl

/-- `generateCodeChallenge` computes exactly the spec's base64url-without-
padding encoding of the SHA-256 digest. -/
theorem generateCodeChallenge_eq_spec (v : String) :
    generateCodeChallenge v
      = String.mk (specBase64UrlNoPad (sha256 (utf8Bytes v))) := by
  unfold generateCodeChallenge
  rw [filter_map_encodeB64]

/-- The challenge never contains `=`, `+` or `/`. -/
theorem generateCodeChallenge_chars (v : String) :
    ∀ c ∈ (generateCodeChallenge v).data, c ≠ '=' ∧ c ≠ '+' ∧ c ≠ '/' := by
  intro c hc
  have hmem : c ∈ ((encodeB64Bytes (sha256 (utf8Bytes v))).map
      b64UrlReplace).filter (· ≠ '=') := hc
  rw [List.mem_filter] at hmem
  obtain ⟨hm, hne⟩ := hmem
  rw [List.mem_map] at hm
  obtain ⟨x, _, rfl⟩ := hm
  exact ⟨by simpa using hne, (b64UrlReplace_ne_plus_slash x).1,
    (b64UrlReplace_ne_plus_slash x).2⟩

/-! ## Support lemmas for the router theorems -/

theorem splitOnChar_no_sep (sep : Char) (l : List Char) (h : sep ∉ l) :
    splitOnChar sep l = [l] := by
  induction l with
  | nil => rfl
  | cons c cs ih =>
      have hc : c ≠ sep := fun hc => h (hc ▸ List.mem_cons_self c cs)
      have hcs : sep ∉ cs := fun hm => h (List.mem_cons_of_mem c hm)
      simp [splitOnChar, hc, ih hcs]

theorem splitOnChar_append (sep : Char) (l r : List Char) (h : sep ∉ l) :
    splitOnChar sep (l ++ sep :: r) = l :: splitOnChar sep r := by
  induction l with
  | nil => simp [splitOnChar]
  | cons c cs ih =>
      have hc : c ≠ sep := fun hc => h (hc ▸ List.mem_cons_self c cs)
      have hcs : sep ∉ cs := fun hm => h (List.mem_cons_of_mem c hm)
      rw [List.cons_append]
      simp only [splitOnChar, if_neg hc, ih hcs]

theorem urlQueryPart_append (base qs : String)
    (hb : '?' ∉ base.data) (hq : '?' ∉ qs.data) :
    urlQueryPart (base ++ "?" ++ qs) = qs := by
  unfold urlQueryPart
  have hdata : (base ++ "?" ++ qs).data = base.data ++ '?' :: qs.data := by
    simp [String.data_append]
  rw [hdata, splitOnChar_append '?' _ _ hb, splitOnChar_no_sep '?' _ hq]

theorem flatten_map_singleton (l : List Char) :
    (l.map (fun c => [c])).flatten = l := by
  induction l with
  | nil => rfl
  | cons c cs ih => simp [ih]

/-- `encodeURIComponent` is the identity on strings of unreserved
characters. -/
theorem encodeURIComponentM_unreserved (s : String)
    (h : ∀ c ∈ s.data, uriUnreserved c = true) :
    encodeURIComponentM s = s := by
  unfold encodeURIComponentM
  have : s.data.map (fun c =>
      if uriUnreserved c then [c]
      else (utf8EncodeChar c).map
        (fun b => ['%', hexDigitUpper (b / 16 % 16), hexDigitUpper (b % 16)])
        |>.flatten) = s.data.map (fun c => [c]) := by
    apply List.map_congr_left
    intro c hc
    rw [if_pos (h c hc)]
  rw [this, flatten_map_singleton]

theorem uriUnreserved_b64url (m : Nat) (h : m < 64) :
    uriUnreserved (b64UrlReplace (b64Alphabet.getD m '?')) = true := by
  have : ∀ k, k < 64 → uriUnreserved (b64UrlReplace (b64Alphabet.getD k '?'))
      = true := by decide
  exact this m h

/-- Every character `btoa` emits is either padding or an alphabet
character. -/
theorem mem_encodeB64Bytes (bs : List Nat) (ch : Char)
    (h : ch ∈ encodeB64Bytes bs) : ch = '=' ∨ ∃ n, ch = sextetChar n := by
  induction bs using encodeB64Bytes.induct with
  | case1 => simp [encodeB64Bytes] at h
  | case2 b1 =>
      simp only [encodeB64Bytes, List.mem_cons, List.not_mem_nil,
        or_false] at h
      rcases h with rfl | rfl | rfl | rfl
      · exact Or.inr ⟨b1 / 4, rfl⟩
      · exact Or.inr ⟨b1 % 4 * 16, rfl⟩
      · exact Or.inl rfl
      · exact Or.inl rfl
  | case3 b1 b2 =>
      simp only [encodeB64Bytes, List.mem_cons, List.not_mem_nil,
        or_false] at h
      rcases h with rfl | rfl | rfl | rfl
      · exact Or.inr ⟨b1 / 4, rfl⟩
      · exact Or.inr ⟨b1 % 4 * 16 + b2 / 16, rfl⟩
      · exact Or.inr ⟨b2 % 16 * 4, rfl⟩
      · exact Or.inl rfl
  | case4 b1 b2 b3 rest ih =>
      simp only [encodeB64Bytes, List.mem_cons] at h
      rcases h with rfl | rfl | rfl | rfl | hm
      · exact Or.inr ⟨b1 / 4, rfl⟩
      · exact Or.inr ⟨b1 % 4 * 16 + b2 / 16, rfl⟩
      · exact Or.inr ⟨b2 % 16 * 4 + b3 / 64, rfl⟩
      · exact Or.inr ⟨b3 % 64, rfl⟩
      · exact ih hm

/-- Every character of a PKCE challenge is unreserved, so
`encodeURIComponent` leaves the challenge unchanged (relevant to the
custom-OAuth authorize URL, custom-oauth-handler.ts:77). -/
theorem encodeURIComponentM_challenge (v : String) :
    encodeURIComponentM (generateCodeChallenge v) = generateCodeChallenge v := by
  apply encodeURIComponentM_unreserved
  intro c hc
  have hmem : c ∈ ((encodeB64Bytes (sha256 (utf8Bytes v))).map
      b64UrlReplace).filter (· ≠ '=') := hc
  rw [List.mem_filter] at hmem
  obtain ⟨hm, hne⟩ := hmem
  rw [List.mem_map] at hm
  obtain ⟨x, hx, rfl⟩ := hm
  rcases mem_encodeB64Bytes _ _ hx with rfl | ⟨n, rfl⟩
  · exact absurd (show b64UrlReplace '=' = '=' from by decide)
      (by simpa using hne)
  · exact uriUnreserved_b64url (n % 64) (by omega)

/-- The state codec round trip, shared by several results below. -/
theorem decodeState_encodeState (req : AuthorizationRequest) (v st : String)
    (h : encodeState req v = some st) : decodeState st = some (req, v) := by
  unfold encodeState at h
  have ha := atobM_btoaM _ _ h
  unfold decodeState
  rw [ha]
  exact parseStateChars_encodeStateChars req v

/-! ## Claim theorems -/

/-- Claim C1, as stated, is false on the code: the default entry point
(src/index.ts, shipped in the snapshot) registers a shared generic
`GET /callback` on the `authRouter`, and that handler dispatches two
requests to the *same* path to *different* providers purely by inspecting
payload query parameters — here an `iss` value containing
`localhost:8080` routes to Keycloak while a `scope` value containing
`googleapis.com` routes to Google, under one fixed environment and the
same authorization code. -/
theorem c1_counterexample :
    "/callback" ∈ indexRouterGets ∧
    rootCallback
        ({ GOOGLE_CLIENT_ID := some "g",
           KEYCLOAK_DOMAIN := some "http://localhost:8080",
           KEYCLOAK_CLIENT_ID := some "k" } : ProviderEnv)
        ({ code := some "abc",
           iss := some "http://localhost:8080/realms/demo" } :
          RootCallbackQuery) ""
      = .redirect "/keycloak/callback" ∧
    rootCallback
        ({ GOOGLE_CLIENT_ID := some "g",
           KEYCLOAK_DOMAIN := some "http://localhost:8080",
           KEYCLOAK_CLIENT_ID := some "k" } : ProviderEnv)
        ({ code := some "abc",
           scope := some "openid https://www.googleapis.com/auth/gmail.readonly" } :
          RootCallbackQuery) ""
      = .redirect "/google/callback" := by
  decide

/-- Claim C1 amended: the Sentry entry point (index_sentry.ts) has no shared
callback — its router registers only `GET /authorize` at the root plus the
five per-provider mounts, so callbacks are dispatched by URL path alone —
while the default entry point (index.ts) retains a shared `GET /callback`
whose dispatch inspects `iss`, `session_state`, `scope`, `authuser` and the
code length (witnessed by the two payload-dependent dispatches below). -/
theorem c1_shared_callback_amended :
    ¬ ("/callback" ∈ sentryRouterGets) ∧
    sentryRouterGets = ["/authorize"] ∧
    routerMounts = ["/github", "/google", "/auth0", "/keycloak", "/custom"] ∧
    "/callback" ∈ indexRouterGets ∧
    detectProviderPath
        ({ GOOGLE_CLIENT_ID := some "g",
           KEYCLOAK_DOMAIN := some "http://localhost:8080",
           KEYCLOAK_CLIENT_ID := some "k" } : ProviderEnv)
        ({ code := some "abc",
           iss := some "http://localhost:8080/realms/demo" } :
          RootCallbackQuery)
      = "/keycloak" ∧
    detectProviderPath
        ({ GOOGLE_CLIENT_ID := some "g",
           KEYCLOAK_DOMAIN := some "http://localhost:8080",
           KEYCLOAK_CLIENT_ID := some "k" } : ProviderEnv)
        ({ code := some "abc",
           scope := some "openid https://www.googleapis.com/auth/gmail.readonly" } :
          RootCallbackQuery)
      = "/google" := by
  decide

/-- Claim C2, as stated, is false on the code: the upstream authorize URL
does not carry only the challenge — its `state` query parameter embeds the
verifier.  Concretely, the Google authorize location contains (URL-encoded)
exactly the `state` string produced by the codec, and the gateway's own
decoder recovers the full request *and the verifier* from that string; the
verifier is distinct from the challenge, so what is transmitted is not only
the challenge. -/
theorem c2_counterexample :
    decodeState ((encodeState reqA verA).getD "") = some (reqA, verA) ∧
    containsSub
        ((googleAuthorizeLocation "google-client-id"
            "https://gw.example/google/callback" reqA verA).getD "")
        (encodeURIComponentM ((encodeState reqA verA).getD ""))
      = true ∧
    verA ≠ generateCodeChallenge verA := by
  decide

/-- Claim C2 amended: for Google and the custom provider, the verifier never
appears as a dedicated query parameter of the upstream authorize URL — the
only PKCE parameters appended are `code_challenge` (carrying exactly
`generateCodeChallenge verifier`, which `encodeURIComponent` leaves
unchanged) and `code_challenge_method=S256` — but the verifier *is*
transmitted to the upstream authorize endpoint, embedded base64-encoded and
unencrypted inside the `state` parameter, from which decoding recovers it
exactly. -/
theorem c2_challenge_in_url_amended (cid ru : String)
    (cu cc : Option String) (req : AuthorizationRequest) (v st : String)
    (h : encodeState req v = some st) :
    googleAuthorizeLocation cid ru req v
      = some (getUpstreamAuthorizeUrl
          ⟨"https://accounts.google.com/o/oauth2/v2/auth", cid,
            "openid profile email https://www.googleapis.com/auth/gmail.send https://www.googleapis.com/auth/gmail.readonly",
            ru, st⟩
          ++ "&code_challenge=" ++ generateCodeChallenge v
          ++ "&code_challenge_method=S256") ∧
    customAuthorizeLocation cu cc ru req v
      = some (getUpstreamAuthorizeUrl
          ⟨jsOrStr cu "http://localhost:3000" ++ "/oauth/authorize",
            jsOrStr cc "demo-client", "read write", ru, st⟩
          ++ "&code_challenge=" ++ generateCodeChallenge v
          ++ "&code_challenge_method=S256") ∧
    decodeState st = some (req, v) := by
  refine ⟨?_, ?_, decodeState_encodeState req v st h⟩
  · unfold googleAuthorizeLocation
    rw [h]
    rfl
  · unfold customAuthorizeLocation
    rw [h, Option.map_some']
    rw [encodeURIComponentM_challenge]

/-- Claim C2 amended, witnessed at a concrete request and verifier. -/
theorem c2_witness :
    googleAuthorizeLocation "google-client-id"
        "https://gw.example/google/callback" reqA verA
      = some (getUpstreamAuthorizeUrl
          ⟨"https://accounts.google.com/o/oauth2/v2/auth", "google-client-id",
            "openid profile email https://www.googleapis.com/auth/gmail.send https://www.googleapis.com/auth/gmail.readonly",
            "https://gw.example/google/callback",
            (encodeState reqA verA).getD ""⟩
          ++ "&code_challenge=" ++ generateCodeChallenge verA
          ++ "&code_challenge_method=S256") :=
  (c2_challenge_in_url_amended "google-client-id"
    "https://gw.example/google/callback" none none reqA verA
    ((encodeState reqA verA).getD "") (by decide)).1

/-- Claim C3: decoding the opaque state produced by encoding a request and a
verifier reproduces both exactly (whenever `btoa` accepts the serialized
object, i.e. whenever a state is produced at all). -/
theorem c3_state_roundtrip (req : AuthorizationRequest) (v st : String)
    (h : encodeState req v = some st) :
    decodeState st = some (req, v) :=
  decodeState_encodeState req v st h

/-- Claim C3, witnessed at a concrete request and verifier. -/
theorem c3_witness :
    decodeState ((encodeState reqA verA).getD "") = some (reqA, verA) :=
  c3_state_roundtrip reqA verA ((encodeState reqA verA).getD "") (by decide)

/-- Claim C4: `generateCodeChallenge` equals the SHA-256 digest of the
verifier's UTF-8 bytes base64url-encoded without padding, its output never
contains `=`, `+` or `/`, and recomputation is (trivially, as a pure
function) identical. -/
theorem c4_challenge (v : String) :
    generateCodeChallenge v
        = String.mk (specBase64UrlNoPad (sha256 (utf8Bytes v))) ∧
    (∀ c ∈ (generateCodeChallenge v).data, c ≠ '=' ∧ c ≠ '+' ∧ c ≠ '/') ∧
    generateCodeChallenge v = generateCodeChallenge v :=
  ⟨generateCodeChallenge_eq_spec v, generateCodeChallenge_chars v, rfl⟩

/-- Claim C5 names a real defect: the callbacks run
`JSON.parse(atob(c.req.query("state") as string))` outside any try/catch
(google-handler.ts:89, keycloak handler line 112), so a missing `state`
(atob receives the string "undefined") or an undecodable `state` raises an
uncaught exception instead of the 400-equivalent MalformedRequest response
the spec prescribes — evaluated here at the failing inputs, with no outbound
call made. -/
theorem c5_unguarded_state_parse :
    googleCallback ⟨none, some "abc"⟩ ⟨.threw "E" "m", .threw "E" "m"⟩
      = (.thrown "SyntaxError", []) ∧
    googleCallback ⟨some "%%%", some "abc"⟩ ⟨.threw "E" "m", .threw "E" "m"⟩
      = (.thrown "SyntaxError", []) ∧
    keycloakCallback ⟨none, some "abc"⟩ ⟨.threw "E" "m", .threw "E" "m"⟩
      = (.thrown "SyntaxError", []) := by
  decide

/-- Claim C6: a callback carrying a valid state (decodable, non-empty client
id) but no `code` parameter fails with the 400 missing-authorization-code
response of each handler — and the outbound-call trace is empty: neither the
token endpoint nor the userinfo endpoint is contacted.  Covers the Google,
Keycloak, custom and Auth0 handlers embedded from the source and the
spec-modelled generic adapter standing in for the one handler absent from
the snapshot (GitHub). -/
theorem c6_missing_code (st : String) (req : AuthorizationRequest)
    (v : String) (code? : Option String) (gnet : UpstreamNet GoogleUser)
    (knet : UpstreamNet KeycloakUser) (cnet : UpstreamNet CustomUser)
    (anet : UpstreamNet Auth0User) (snet : UpstreamNet Unit)
    (hdec : decodeState st = some (req, v)) (hcid : req.clientId ≠ "")
    (hcode : jsTruthy code? = false) :
    googleCallback ⟨some st, code?⟩ gnet
      = (.response 400 "Missing authorization code. Please try again.", []) ∧
    keycloakCallback ⟨some st, code?⟩ knet
      = (.response 400 "Missing authorization code", []) ∧
    customCallback ⟨some st, code?⟩ cnet
      = (.response 400 "Missing authorization code", []) ∧
    auth0Callback ⟨some st, code?⟩ anet
      = (.response 400 "Missing authorization code", []) ∧
    specAdapterCallback ⟨some st, code?⟩ snet
      = (.response 400 "MalformedRequest", []) := by
  refine ⟨?_, ?_, ?_, ?_, ?_⟩ <;>
    simp [googleCallback, keycloakCallback, customCallback, auth0Callback,
      specAdapterCallback, hdec, hcid, hcode]

/-- Claim C6, witnessed: a concrete valid state with the `code` parameter
absent yields the Google and Auth0 400 responses with an empty call
trace. -/
theorem c6_witness :
    googleCallback ⟨some ((encodeState reqA verA).getD ""), none⟩
        ⟨.threw "E" "m", .threw "E" "m"⟩
      = (.response 400 "Missing authorization code. Please try again.", []) ∧
    auth0Callback ⟨some ((encodeState reqA verA).getD ""), none⟩
        ⟨.threw "E" "m", .threw "E" "m"⟩
      = (.response 400 "Missing authorization code", []) := by
  have h := c6_missing_code ((encodeState reqA verA).getD "") reqA verA none
    ⟨.threw "E" "m", .threw "E" "m"⟩ ⟨.threw "E" "m", .threw "E" "m"⟩
    ⟨.threw "E" "m", .threw "E" "m"⟩ ⟨.threw "E" "m", .threw "E" "m"⟩
    ⟨.threw "E" "m", .threw "E" "m"⟩
    (by decide) (by decide) rfl
  exact ⟨h.1, h.2.2.2.1⟩

/-- Claim C7: when the token endpoint answers non-2xx (`ok = false`), every
handler terminates the attempt with its failure response, the token call
appears exactly once in the trace (no retry), and the userinfo endpoint is
never invoked.  Google, Keycloak, custom and Auth0 are embedded from the
source; the spec-modelled generic adapter stands in for the absent GitHub
handler. -/
theorem c7_token_failure_no_userinfo (st : String)
    (req : AuthorizationRequest) (v : String) (code? : Option String)
    (tr : TokenResp) (gu : FetchResult (UserResp GoogleUser))
    (ku : FetchResult (UserResp KeycloakUser))
    (cu : FetchResult (UserResp CustomUser))
    (au : FetchResult (UserResp Auth0User))
    (su : FetchResult (UserResp Unit))
    (hdec : decodeState st = some (req, v)) (hcid : req.clientId ≠ "")
    (hcode : jsTruthy code? = true) (hok : tr.ok = false) :
    googleCallback ⟨some st, code?⟩ ⟨.got tr, gu⟩
      = (.response 500 ("Failed to fetch access token: " ++ toString tr.status),
         [.token]) ∧
    UpstreamCall.userinfo ∉ (googleCallback ⟨some st, code?⟩ ⟨.got tr, gu⟩).2 ∧
    (googleCallback ⟨some st, code?⟩ ⟨.got tr, gu⟩).2.count .token = 1 ∧
    keycloakCallback ⟨some st, code?⟩ ⟨.got tr, ku⟩
      = (.response 500 ("Failed to fetch access token: " ++ toString tr.status
          ++ " " ++ tr.statusText), [.token]) ∧
    UpstreamCall.userinfo ∉ (keycloakCallback ⟨some st, code?⟩ ⟨.got tr, ku⟩).2 ∧
    customCallback ⟨some st, code?⟩ ⟨.got tr, cu⟩
      = (.response 500 ("Failed to fetch access token: " ++ toString tr.status
          ++ " " ++ tr.statusText), [.token]) ∧
    UpstreamCall.userinfo ∉ (customCallback ⟨some st, code?⟩ ⟨.got tr, cu⟩).2 ∧
    auth0Callback ⟨some st, code?⟩ ⟨.got tr, au⟩
      = (.response 500 ("Failed to fetch access token: " ++ toString tr.status
          ++ " " ++ tr.statusText), [.token]) ∧
    UpstreamCall.userinfo ∉ (auth0Callback ⟨some st, code?⟩ ⟨.got tr, au⟩).2 ∧
    specAdapterCallback ⟨some st, code?⟩ ⟨.got tr, su⟩
      = (.response 500 "UpstreamRejected", [.token]) := by
  have hg : googleCallback ⟨some st, code?⟩ ⟨.got tr, gu⟩
      = (.response 500 ("Failed to fetch access token: " ++ toString tr.status),
         [.token]) := by
    simp [googleCallback, hdec, hcid, hcode, hok]
  have hk : keycloakCallback ⟨some st, code?⟩ ⟨.got tr, ku⟩
      = (.response 500 ("Failed to fetch access token: " ++ toString tr.status
          ++ " " ++ tr.statusText), [.token]) := by
    simp [keycloakCallback, hdec, hcid, hcode, hok]
  have hc : customCallback ⟨some st, code?⟩ ⟨.got tr, cu⟩
      = (.response 500 ("Failed to fetch access token: " ++ toString tr.status
          ++ " " ++ tr.statusText), [.token]) := by
    simp [customCallback, hdec, hcid, hcode, hok]
  have ha : auth0Callback ⟨some st, code?⟩ ⟨.got tr, au⟩
      = (.response 500 ("Failed to fetch access token: " ++ toString tr.status
          ++ " " ++ tr.statusText), [.token]) := by
    simp [auth0Callback, hdec, hcid, hcode, hok]
  have hs : specAdapterCallback ⟨some st, code?⟩ ⟨.got tr, su⟩
      = (.response 500 "UpstreamRejected", [.token]) := by
    simp [specAdapterCallback, hdec, hcid, hcode, hok]
  refine ⟨hg, ?_, ?_, hk, ?_, hc, ?_, ha, ?_, hs⟩
  · rw [hg]
    show UpstreamCall.userinfo ∉ [UpstreamCall.token]
    decide
  · rw [hg]
    show ([UpstreamCall.token] : List UpstreamCall).count .token = 1
    decide
  · rw [hk]
    show UpstreamCall.userinfo ∉ [UpstreamCall.token]
    decide
  · rw [hc]
    show UpstreamCall.userinfo ∉ [UpstreamCall.token]
    decide
  · rw [ha]
    show UpstreamCall.userinfo ∉ [UpstreamCall.token]
    decide

/-- Claim C7, witnessed: a concrete 401 token response makes the Google and
Auth0 handlers answer 500 with a single token call and no userinfo call. -/
theorem c7_witness :
    googleCallback ⟨some ((encodeState reqA verA).getD ""), some "code123"⟩
        ⟨.got ⟨false, 401, "Unauthorized", none⟩, .threw "E" "m"⟩
      = (.response 500 "Failed to fetch access token: 401", [.token]) ∧
    auth0Callback ⟨some ((encodeState reqA verA).getD ""), some "code123"⟩
        ⟨.got ⟨false, 401, "Unauthorized", none⟩, .threw "E" "m"⟩
      = (.response 500 "Failed to fetch access token: 401 Unauthorized",
         [.token]) := by
  have h := c7_token_failure_no_userinfo ((encodeState reqA verA).getD "")
    reqA verA (some "code123") ⟨false, 401, "Unauthorized", none⟩
    (.threw "E" "m") (.threw "E" "m") (.threw "E" "m") (.threw "E" "m")
    (.threw "E" "m") (by decide) (by decide) (by decide) rfl
  exact ⟨h.1.trans (by decide), h.2.2.2.2.2.2.2.1.trans (by decide)⟩

/-- Claim C8, as stated, is false on the code: the root `/authorize` handler
extracts the query string as `url.split('?')[1]`, so a query string that
itself contains `'?'` (legal in a URL query, e.g. an unencoded
`redirect_uri`) is truncated at its first `'?'` rather than preserved
verbatim. -/
theorem c8_counterexample :
    rootAuthorize ({ GITHUB_CLIENT_ID := some "gh" } : ProviderEnv)
        "https://gw.example/authorize?redirect_uri=https://app.example/cb?x=1"
      = .redirect "/github/authorize?redirect_uri=https://app.example/cb" ∧
    rawQueryString
        "https://gw.example/authorize?redirect_uri=https://app.example/cb?x=1"
      = "redirect_uri=https://app.example/cb?x=1" ∧
    ¬ rootAuthorize ({ GITHUB_CLIENT_ID := some "gh" } : ProviderEnv)
        "https://gw.example/authorize?redirect_uri=https://app.example/cb?x=1"
      = .redirect ("/github/authorize?" ++ rawQueryString
          "https://gw.example/authorize?redirect_uri=https://app.example/cb?x=1") := by
  decide

/-- Claim C8 amended: with exactly one provider configured, `GET /authorize`
redirects to that provider's `/authorize` with the query string preserved
verbatim, provided the query string contains no `'?'` (a query string
containing `'?'` is truncated at its first `'?'`, per the
counterexample). -/
theorem c8_single_provider_redirect_amended (env : ProviderEnv)
    (base qs : String) (h1 : (configuredProviders env).length = 1)
    (hb : '?' ∉ base.data) (hq : '?' ∉ qs.data) :
    rootAuthorize env (base ++ "?" ++ qs)
      = .redirect (((configuredProviders env).headD ("", "")).2
          ++ "/authorize" ++ (if qs ≠ "" then "?" ++ qs else "")) := by
  simp [rootAuthorize, h1, urlQueryPart_append base qs hb hq]

/-- Claim C8 amended, witnessed with only `GITHUB_CLIENT_ID` configured. -/
theorem c8_witness :
    rootAuthorize ({ GITHUB_CLIENT_ID := some "gh" } : ProviderEnv)
        ("https://gw.example/authorize" ++ "?" ++ "client_id=x&redirect_uri=y")
      = .redirect (((configuredProviders
            ({ GITHUB_CLIENT_ID := some "gh" } : ProviderEnv)).headD
              ("", "")).2
          ++ "/authorize"
          ++ (if ("client_id=x&redirect_uri=y" : String) ≠ "" then
                "?" ++ "client_id=x&redirect_uri=y" else "")) :=
  c8_single_provider_redirect_amended _ _ _ (by decide) (by decide) (by decide)

/-- Claim C9, as stated, is false on the code: for a Keycloak userinfo
payload with no `preferred_username`, `email = "@example.com"` (present) and
`sub = "uuid-1"`, the claim's rule gives the empty local part of the email,
but `preferred_username || email?.split('@')[0] || sub || 'unknown'` falls
through the empty (falsy) local part to `sub`. -/
theorem c9_counterexample :
    keycloakLogin ⟨none, some "@example.com", some "uuid-1"⟩ = "uuid-1" ∧
    keycloakLoginClaim ⟨none, some "@example.com", some "uuid-1"⟩ = "" ∧
    ¬ keycloakLogin ⟨none, some "@example.com", some "uuid-1"⟩
        = keycloakLoginClaim ⟨none, some "@example.com", some "uuid-1"⟩ := by
  decide

/-- Claim C9 amended: the Keycloak login is `preferred_username` when present
and non-empty, else the local part of `email` when `email` is present and
that local part is non-empty, else `sub` when present and non-empty, else
`"unknown"`. -/
theorem c9_keycloak_login_amended (u : KeycloakUser) :
    keycloakLogin u = keycloakLoginAmended u := by
  obtain ⟨pu, em, sb⟩ := u
  cases pu <;> cases em <;> cases sb <;>
    simp [keycloakLogin, keycloakLoginAmended, keycloakAmendedEmailFallback,
      keycloakAmendedSubFallback, jsOrStr]

/-- Claim C10: the Google callback's login derivation
(`email.split('@')[0]`, google-handler.ts:170) is partial — after a
successful token exchange and userinfo fetch, a payload with no `email`
raises an uncaught `TypeError` instead of a controlled response, while any
payload with a non-empty `email` string completes with the local part as
the login. -/
theorem c10_google_email_partiality (st : String)
    (req : AuthorizationRequest) (v : String) (code? : Option String)
    (tr : TokenResp) (ur : UserResp GoogleUser)
    (hdec : decodeState st = some (req, v)) (hcid : req.clientId ≠ "")
    (hcode : jsTruthy code? = true) (htok : tr.ok = true)
    (hat : jsTruthy tr.accessToken = true) (hur : ur.ok = true) :
    (ur.payload.email = none →
      googleCallback ⟨some st, code?⟩ ⟨.got tr, .got ur⟩
        = (.thrown "TypeError", [.token, .userinfo])) ∧
    (∀ e, ur.payload.email = some e → e ≠ "" →
      googleCallback ⟨some st, code?⟩ ⟨.got tr, .got ur⟩
        = (.completed (localPart e), [.token, .userinfo])) := by
  constructor
  · intro he
    simp [googleCallback, hdec, hcid, hcode, htok, hat, hur, he]
  · intro e he _
    simp [googleCallback, hdec, hcid, hcode, htok, hat, hur, he]

/-- Claim C10, witnessed: a userinfo payload lacking `email` makes the
Google callback throw after both upstream calls. -/
theorem c10_witness :
    googleCallback ⟨some ((encodeState reqA verA).getD ""), some "code123"⟩
        ⟨.got ⟨true, 200, "OK", some "tok"⟩, .got ⟨true, 200, "OK", ⟨none⟩⟩⟩
      = (.thrown "TypeError", [.token, .userinfo]) :=
  (c10_google_email_partiality ((encodeState reqA verA).getD "") reqA verA
    (some "code123") ⟨true, 200, "OK", some "tok"⟩ ⟨true, 200, "OK", ⟨none⟩⟩
    (by decide) (by decide) rfl rfl rfl rfl).1 rfl

end McpAuth
